import Mathlib

/-!
# KSANCOV coverage tools: shallow embedding and verified properties

The two C programs of the repository, `ksancov_example.c` and
`simple_coverage_test.c`, are clients of the `/dev/ksancov` device.  Both
declare the same shared-memory structures and the same thin wrappers around
`ioctl`; they differ in the drivers built on top of them.

Conventions of the embedding:

* `uint32_t`, `uint8_t`, `uint64_t`, `uintptr_t` and `size_t` values are natural
  numbers; a reduction modulo `2^w` is written wherever the C code narrows or can
  wrap.  The target is macOS (LP64): `uintptr_t` and `size_t` are 64 bits wide.
* A flexible array member (`kt_entries[]`, `kc_hits[]`, `ke_addrs[]`) is the
  memory that follows the structure, indexed by slot: a function `Nat → Nat`.
  The C code carries no length for it; only the first `kt_maxent` (resp.
  `kc_nedges`, `ke_nedges`) slots belong to the buffer.
* The device is an environment: a record of what `open` and each `ioctl`
  answer, what the mapped pointers point at, and what the kernel writes while
  the workload runs.
* Definitions under `Ksancov.Example` embed `ksancov_example.c`, those under
  `Ksancov.Test` embed `simple_coverage_test.c`.
-/

namespace Ksancov

/-! ## Machine integer widths -/

/-- Number of values of a `uint32_t`. -/
def UINT32_MOD : Nat := 2 ^ 32

/-- Number of values of a `uintptr_t` / `size_t` on the LP64 target. -/
def UINTPTR_MOD : Nat := 2 ^ 64

/-! ## Shared-memory structures (identical in both source files) -/

/-- The `struct ksancov_buf_desc`: what `KSANCOV_IOC_MAP` fills in. -/
structure ksancov_buf_desc where
  ptr : Nat
  sz : Nat
  deriving DecidableEq, Repr

/-- The `ksancov_header_t`: mode tag and atomic enabled flag. -/
structure ksancov_header where
  kh_magic : Nat
  kh_enabled : Nat
  deriving DecidableEq, Repr

/-- The `ksancov_trace_t`: header, capacity, atomic head, then the slots. -/
structure ksancov_trace where
  kt_hdr : ksancov_header
  kt_maxent : Nat
  kt_head : Nat
  kt_entries : Nat → Nat

/-- The `ksancov_counters_t`: header, edge count, then one byte per edge. -/
structure ksancov_counters where
  kc_hdr : ksancov_header
  kc_nedges : Nat
  kc_hits : Nat → Nat

/-- The `ksancov_edgemap_t`: tag, edge count, then one address per edge. -/
structure ksancov_edgemap where
  ke_magic : Nat
  ke_nedges : Nat
  ke_addrs : Nat → Nat

/-! ## `ksancov_example.c`: buffer helpers -/

namespace Example

/-- The `ksancov_start` of `ksancov_example.c`, on the header the `void *` is
cast to: stores 1 in `kh_enabled` and returns 0. -/
def ksancov_start (hdr : ksancov_header) : ksancov_header × Int :=
  ({ hdr with kh_enabled := 1 }, 0)

/-- The `ksancov_stop` of `ksancov_example.c`: stores 0 in `kh_enabled` and
returns 0. -/
def ksancov_stop (hdr : ksancov_header) : ksancov_header × Int :=
  ({ hdr with kh_enabled := 0 }, 0)

/-- The call `ksancov_start((void *)buf)` on a trace buffer: the header is the
first member, nothing else is written. -/
def start_trace (t : ksancov_trace) : ksancov_trace :=
  { t with kt_hdr := (ksancov_start t.kt_hdr).1 }

/-- The call `ksancov_stop((void *)buf)` on a trace buffer. -/
def stop_trace (t : ksancov_trace) : ksancov_trace :=
  { t with kt_hdr := (ksancov_stop t.kt_hdr).1 }

/-- The call `ksancov_start((void *)buf)` on a counters buffer. -/
def start_counters (c : ksancov_counters) : ksancov_counters :=
  { c with kc_hdr := (ksancov_start c.kc_hdr).1 }

/-- The call `ksancov_stop((void *)buf)` on a counters buffer. -/
def stop_counters (c : ksancov_counters) : ksancov_counters :=
  { c with kc_hdr := (ksancov_stop c.kc_hdr).1 }

/-- The `ksancov_trace_head`: the head clamped to the capacity. -/
def ksancov_trace_head (trace : ksancov_trace) : Nat :=
  let maxent := trace.kt_maxent
  let head := trace.kt_head
  if head < maxent then head else maxent

/-- The `ksancov_trace_entry`: 0 when `i >= trace->kt_head`, else slot `i`
converted to `uintptr_t`. -/
def ksancov_trace_entry (trace : ksancov_trace) (i : Nat) : Nat :=
  if i ≥ trace.kt_head then 0
  else trace.kt_entries i % UINTPTR_MOD

/-- The slots of `kt_entries` that `ksancov_trace_entry(trace, i)` reads. -/
def ksancov_trace_entry_reads (trace : ksancov_trace) (i : Nat) : List Nat :=
  if i ≥ trace.kt_head then [] else [i]

end Example

/-! ## `simple_coverage_test.c`: buffer helpers -/

namespace Test

/-- The `ksancov_start` of `simple_coverage_test.c` (returns `void`). -/
def ksancov_start (hdr : ksancov_header) : ksancov_header :=
  { hdr with kh_enabled := 1 }

/-- The `ksancov_stop` of `simple_coverage_test.c` (returns `void`). -/
def ksancov_stop (hdr : ksancov_header) : ksancov_header :=
  { hdr with kh_enabled := 0 }

/-- The call `ksancov_start(trace)`. -/
def start_trace (t : ksancov_trace) : ksancov_trace :=
  { t with kt_hdr := ksancov_start t.kt_hdr }

/-- The call `ksancov_stop(trace)`. -/
def stop_trace (t : ksancov_trace) : ksancov_trace :=
  { t with kt_hdr := ksancov_stop t.kt_hdr }

/-- The call `ksancov_start(counters)`. -/
def start_counters (c : ksancov_counters) : ksancov_counters :=
  { c with kc_hdr := ksancov_start c.kc_hdr }

/-- The call `ksancov_stop(counters)`. -/
def stop_counters (c : ksancov_counters) : ksancov_counters :=
  { c with kc_hdr := ksancov_stop c.kc_hdr }

/-- The `ksancov_reset_trace`: stores 0 in `kt_head`. -/
def ksancov_reset_trace (trace : ksancov_trace) : ksancov_trace :=
  { trace with kt_head := 0 }

/-- The `bzero(s, n)`: the first `n` bytes at `s` become 0. -/
def bzero (s : Nat → Nat) (n : Nat) : Nat → Nat :=
  fun i => if i < n then 0 else s i

/-- The `ksancov_reset_counters`: `bzero(counters->kc_hits, counters->kc_nedges)`. -/
def ksancov_reset_counters (counters : ksancov_counters) : ksancov_counters :=
  { counters with kc_hits := bzero counters.kc_hits counters.kc_nedges }

/-- The head read of `test_trace_mode`: load `kt_head`, then
`head = head < trace->kt_maxent ? head : trace->kt_maxent`. -/
def test_trace_mode_head (trace : ksancov_trace) : Nat :=
  let head := trace.kt_head
  if head < trace.kt_maxent then head else trace.kt_maxent

end Test

/-! ## The device as an environment -/

/-- The control codes `KSANCOV_IOC_*` used by the two programs. -/
inductive ksancov_ioc where
  | TRACE
  | COUNTERS
  | STKSIZE
  | MAP
  | MAP_EDGEMAP
  | START
  | NEDGES
  deriving DecidableEq, Repr

/-- What one `ioctl` call answered: its return value (`-1` is failure), the
value `errno` holds after the call, the `struct ksancov_buf_desc` parameter
block as the device left it (map requests) and the `size_t` parameter as the
device left it (`KSANCOV_IOC_NEDGES`). -/
structure ioctl_result where
  ret : Int
  errno : Int
  mc : ksancov_buf_desc
  out : Nat

/-- The device and kernel side, as seen by the client.  `openat flags` is the
return value of `open(KSANCOV_PATH, flags)`; `ioctl fd req arg` is the answer
to a control operation, `arg` being the value of the pointed-to parameter on
entry (0 where there is none); `trace_at`, `counters_at` and `edgemap_at` are
what the client finds when it casts a mapped address to the structure;
`kernel_trace` and `kernel_counters` are what the kernel has written to the
buffer when the workload is over; `errno_at_return e` is the value read by a
`return errno;` that follows `perror` (and `close`), `e` being `errno` after
the failing call. -/
structure Device where
  openat : Nat → Int
  open_errno : Nat → Int
  ioctl : Int → ksancov_ioc → Nat → ioctl_result
  trace_at : Nat → ksancov_trace
  counters_at : Nat → ksancov_counters
  edgemap_at : Nat → ksancov_edgemap
  kernel_trace : ksancov_trace → ksancov_trace
  kernel_counters : ksancov_counters → ksancov_counters
  errno_at_return : Int → Int

/-- The control operation failed with platform error code `e`. -/
def ioctl_result.fails_with (r : ioctl_result) (e : Int) : Prop :=
  r.ret = -1 ∧ r.errno = e

/-- The control operation succeeded. -/
def ioctl_result.succeeds (r : ioctl_result) : Prop :=
  r.ret ≠ -1

instance (r : ioctl_result) (e : Int) : Decidable (r.fails_with e) := by
  unfold ioctl_result.fails_with
  infer_instance

instance (r : ioctl_result) : Decidable r.succeeds := by
  unfold ioctl_result.succeeds
  infer_instance

/-- Result of a map wrapper: the returned `int`, then `*buf` and `*sz` after
the call (`sz` is `none` when the caller passed `NULL`). -/
structure map_result where
  ret : Int
  buf : Nat
  sz : Option Nat
  deriving DecidableEq, Repr

/-- The values the uninitialised locals of a driver hold on entry. -/
structure Locals where
  buf : Nat
  sz : Nat
  edgemap_buf : Nat
  edgemap_sz : Nat

/-- What a driver does that can be observed from outside, in order: the calls
it makes on the device and on the mapped buffer, and the integer data of the
lines it prints (the percentage printed with the totals is floating point and
is left out). -/
inductive Event where
  | ev_open (flags : Nat)
  | ev_open_failed
  | ev_ioctl (req : ksancov_ioc) (arg : Nat)
  | ev_failed (req : ksancov_ioc) (code : Int)
  | ev_close
  | ev_reset
  | ev_start
  | ev_workload
  | ev_stop
  | print_nedges (n : Nat)
  | print_mapped (addr size : Nat)
  | print_mapped_count (addr size count : Nat)
  | print_edgemap (addr size : Nat)
  | print_edgemap_nedges (addr nedges : Nat)
  | print_head (head : Nat)
  | print_pc (i pc : Nat)
  | print_more (n : Nat)
  | print_no_data
  | print_totals (nedges hit_edges total_hits : Nat)
  | print_edge (i hits addr : Nat)
  deriving DecidableEq, Repr

/-- The flag `O_RDWR`. -/
def O_RDWR : Nat := 2

/-- The constant `SIZE_MAX` of the LP64 target. -/
def SIZE_MAX : Nat := UINTPTR_MOD - 1

/-! ## `ksancov_example.c`: wrappers and drivers -/

namespace Example

/-- The `ksancov_open`: `open(KSANCOV_PATH, O_RDWR)`. -/
def ksancov_open (dev : Device) : Int :=
  dev.openat O_RDWR

/-- The `ksancov_map`: `buf` is the value `*buf` holds on entry, `sz` the value
`*sz` holds on entry, or `none` for a `NULL` pointer. -/
def ksancov_map (dev : Device) (fd : Int) (buf : Nat) (sz : Option Nat) : map_result :=
  let r := dev.ioctl fd ksancov_ioc.MAP 0
  if r.ret = -1 then
    { ret := r.errno, buf := buf, sz := sz }
  else
    { ret := 0, buf := r.mc.ptr, sz := sz.map (fun _ => r.mc.sz) }

/-- The `ksancov_map_edgemap`. -/
def ksancov_map_edgemap (dev : Device) (fd : Int) (buf : Nat) (sz : Option Nat) : map_result :=
  let r := dev.ioctl fd ksancov_ioc.MAP_EDGEMAP 0
  if r.ret = -1 then
    { ret := r.errno, buf := buf, sz := sz }
  else
    { ret := 0, buf := r.mc.ptr, sz := sz.map (fun _ => r.mc.sz) }

/-- The `ksancov_nedges`: `SIZE_MAX` on failure, else what the device wrote. -/
def ksancov_nedges (dev : Device) (fd : Int) : Nat :=
  let r := dev.ioctl fd ksancov_ioc.NEDGES 0
  if r.ret = -1 then SIZE_MAX else r.out

/-- The `ksancov_mode_trace`. -/
def ksancov_mode_trace (dev : Device) (fd : Int) (entries : Nat) : Int :=
  let ret := (dev.ioctl fd ksancov_ioc.TRACE entries).ret
  if ret = -1 then (dev.ioctl fd ksancov_ioc.TRACE entries).errno else 0

/-- The `ksancov_mode_counters`. -/
def ksancov_mode_counters (dev : Device) (fd : Int) : Int :=
  let ret := (dev.ioctl fd ksancov_ioc.COUNTERS 0).ret
  if ret = -1 then (dev.ioctl fd ksancov_ioc.COUNTERS 0).errno else 0

/-- The `ksancov_thread_self`: `th = 0` is passed to `KSANCOV_IOC_START`. -/
def ksancov_thread_self (dev : Device) (fd : Int) : Int :=
  let th := 0
  let ret := (dev.ioctl fd ksancov_ioc.START th).ret
  if ret = -1 then (dev.ioctl fd ksancov_ioc.START th).errno else 0

/-- The `ksancov_edge_addr`: 0 when `idx >= kemap->ke_nedges`, else slot `idx`. -/
def ksancov_edge_addr (kemap : ksancov_edgemap) (idx : Nat) : Nat :=
  if idx ≥ kemap.ke_nedges then 0 else kemap.ke_addrs idx

/-- The listing loop of `example_counters_mode`:
`for (size_t i = 0; i < counters->kc_nedges && i < 20; i++)`, printing the
edges whose counter is non-zero. -/
def example_counters_listing (counters : ksancov_counters) (edgemap : ksancov_edgemap) :
    List Event :=
  (List.range (min counters.kc_nedges 20)).filterMap (fun i =>
    let hits := counters.kc_hits i
    let pc := ksancov_edge_addr edgemap i
    if hits > 0 then some (Event.print_edge i hits pc) else none)

/-- The `example_counters_mode`: the returned `int` and what the run did. -/
def example_counters_mode (dev : Device) (l : Locals) : Int × List Event :=
  let fd := ksancov_open dev
  let ev := [Event.ev_open O_RDWR]
  if fd < 0 then
    (dev.errno_at_return (dev.open_errno O_RDWR), ev ++ [Event.ev_open_failed])
  else
  let nedges := ksancov_nedges dev fd
  let ev := ev ++ [Event.ev_ioctl ksancov_ioc.NEDGES 0]
  if nedges = SIZE_MAX then
    (dev.errno_at_return (dev.ioctl fd ksancov_ioc.NEDGES 0).errno,
      ev ++ [Event.ev_failed ksancov_ioc.NEDGES (dev.ioctl fd ksancov_ioc.NEDGES 0).errno,
             Event.ev_close])
  else
  let ev := ev ++ [Event.print_nedges nedges]
  let ret := ksancov_mode_counters dev fd
  let ev := ev ++ [Event.ev_ioctl ksancov_ioc.COUNTERS 0]
  if ret ≠ 0 then
    (ret, ev ++ [Event.ev_failed ksancov_ioc.COUNTERS ret, Event.ev_close])
  else
  let m := ksancov_map dev fd l.buf (some l.sz)
  let ev := ev ++ [Event.ev_ioctl ksancov_ioc.MAP 0]
  if m.ret ≠ 0 then
    (m.ret, ev ++ [Event.ev_failed ksancov_ioc.MAP m.ret, Event.ev_close])
  else
  let buf := m.buf
  let ev := ev ++ [Event.print_mapped buf (m.sz.getD l.sz)]
  let em := ksancov_map_edgemap dev fd l.edgemap_buf (some l.edgemap_sz)
  let ev := ev ++ [Event.ev_ioctl ksancov_ioc.MAP_EDGEMAP 0]
  if em.ret ≠ 0 then
    (em.ret, ev ++ [Event.ev_failed ksancov_ioc.MAP_EDGEMAP em.ret, Event.ev_close])
  else
  let edgemap_buf := em.buf
  let ev := ev ++ [Event.print_edgemap edgemap_buf (em.sz.getD l.edgemap_sz)]
  let ret := ksancov_thread_self dev fd
  let ev := ev ++ [Event.ev_ioctl ksancov_ioc.START 0]
  if ret ≠ 0 then
    (ret, ev ++ [Event.ev_failed ksancov_ioc.START ret, Event.ev_close])
  else
  let c1 := start_counters (dev.counters_at buf)
  let c2 := dev.kernel_counters c1
  let c3 := stop_counters c2
  let ev := ev ++ [Event.ev_start, Event.ev_workload, Event.ev_stop]
  let counters := c3
  let edgemap := dev.edgemap_at edgemap_buf
  (0, ev ++ example_counters_listing counters edgemap ++ [Event.ev_close])

end Example

/-! ## `simple_coverage_test.c`: wrappers and drivers -/

namespace Test

/-- The `ksancov_open`: `open(KSANCOV_PATH, 0)`. -/
def ksancov_open (dev : Device) : Int :=
  dev.openat 0

/-- The `ksancov_map`: `buf` is the value `*buf` holds on entry, `sz` the value
`*sz` holds on entry, or `none` for a `NULL` pointer. -/
def ksancov_map (dev : Device) (fd : Int) (buf : Nat) (sz : Option Nat) : map_result :=
  let r := dev.ioctl fd ksancov_ioc.MAP 0
  if r.ret = -1 then { ret := r.errno, buf := buf, sz := sz }
  else { ret := 0, buf := r.mc.ptr, sz := sz.map (fun _ => r.mc.sz) }

/-- The `ksancov_map_edgemap`. -/
def ksancov_map_edgemap (dev : Device) (fd : Int) (buf : Nat) (sz : Option Nat) : map_result :=
  let r := dev.ioctl fd ksancov_ioc.MAP_EDGEMAP 0
  if r.ret = -1 then { ret := r.errno, buf := buf, sz := sz }
  else { ret := 0, buf := r.mc.ptr, sz := sz.map (fun _ => r.mc.sz) }

/-- The `ksancov_mode_trace`. -/
def ksancov_mode_trace (dev : Device) (fd : Int) (entries : Nat) : Int :=
  if (dev.ioctl fd ksancov_ioc.TRACE entries).ret = -1
  then (dev.ioctl fd ksancov_ioc.TRACE entries).errno else 0

/-- The `ksancov_mode_counters`. -/
def ksancov_mode_counters (dev : Device) (fd : Int) : Int :=
  if (dev.ioctl fd ksancov_ioc.COUNTERS 0).ret = -1
  then (dev.ioctl fd ksancov_ioc.COUNTERS 0).errno else 0

/-- The `ksancov_thread_self`: `th = 0` is passed to `KSANCOV_IOC_START`. -/
def ksancov_thread_self (dev : Device) (fd : Int) : Int :=
  let th := 0
  if (dev.ioctl fd ksancov_ioc.START th).ret = -1
  then (dev.ioctl fd ksancov_ioc.START th).errno else 0

/-- The lines `[i] pc` printed by `test_trace_mode`:
`for (uint32_t i = 0; i < head && i < 10; i++)` over `trace->kt_entries[i]`. -/
def test_trace_mode_pcs (trace : ksancov_trace) (head : Nat) : List Event :=
  (List.range (min head 10)).map (fun i =>
    Event.print_pc i (trace.kt_entries i % UINTPTR_MOD))

/-- The `test_trace_mode`: what the run did, in order. -/
def test_trace_mode (dev : Device) (l : Locals) : List Event :=
  let fd := ksancov_open dev
  let ev := [Event.ev_open 0]
  if fd < 0 then ev ++ [Event.ev_open_failed]
  else
  let max_entries := 64 * 1024
  let ret := ksancov_mode_trace dev fd max_entries
  let ev := ev ++ [Event.ev_ioctl ksancov_ioc.TRACE max_entries]
  if ret ≠ 0 then ev ++ [Event.ev_failed ksancov_ioc.TRACE ret, Event.ev_close]
  else
  let m := ksancov_map dev fd l.buf (some l.sz)
  let ev := ev ++ [Event.ev_ioctl ksancov_ioc.MAP 0]
  if m.ret ≠ 0 then ev ++ [Event.ev_failed ksancov_ioc.MAP m.ret, Event.ev_close]
  else
  let buf_addr := m.buf
  let trace := dev.trace_at buf_addr
  let ev := ev ++ [Event.print_mapped_count buf_addr (m.sz.getD l.sz) trace.kt_maxent]
  let em := ksancov_map_edgemap dev fd l.edgemap_buf none
  let ev := ev ++ [Event.ev_ioctl ksancov_ioc.MAP_EDGEMAP 0]
  let ev := ev ++
    (if em.ret ≠ 0 then [Event.ev_failed ksancov_ioc.MAP_EDGEMAP em.ret]
     else [Event.print_edgemap_nedges em.buf (dev.edgemap_at em.buf).ke_nedges])
  let ret := ksancov_thread_self dev fd
  let ev := ev ++ [Event.ev_ioctl ksancov_ioc.START 0]
  if ret ≠ 0 then ev ++ [Event.ev_failed ksancov_ioc.START ret, Event.ev_close]
  else
  let t1 := start_trace (ksancov_reset_trace trace)
  let t2 := dev.kernel_trace t1
  let t3 := stop_trace t2
  let ev := ev ++ [Event.ev_reset, Event.ev_start, Event.ev_workload, Event.ev_stop]
  let head := test_trace_mode_head t3
  let ev := ev ++ [Event.print_head head]
  let ev := ev ++
    (if head > 0 then
       test_trace_mode_pcs t3 head ++ (if head > 10 then [Event.print_more (head - 10)] else [])
     else [Event.print_no_data])
  ev ++ [Event.ev_close]

/-- State of the counting loop of `test_counters_mode`: the loop variable, the
two accumulators, and the indices of `kc_hits` visited so far, in order. -/
structure scan_state where
  i : Nat
  hit_edges : Nat
  total_hits : Nat
  visited : List Nat
  deriving DecidableEq, Repr

/-- The counting loop of `test_counters_mode`,
`for (uint32_t i = 0; i < counters->kc_nedges; i++)`, from a given state; every
variable is a `uint32_t`.  It answers `none` when the fuel runs out before the
loop condition fails. -/
def scan_loop (counters : ksancov_counters) : Nat → scan_state → Option scan_state
  | 0, _ => none
  | fuel + 1, s =>
    if s.i < counters.kc_nedges then
      let s1 : scan_state :=
        if counters.kc_hits s.i > 0 then
          { s with
            hit_edges := (s.hit_edges + 1) % UINT32_MOD
            total_hits := (s.total_hits + counters.kc_hits s.i) % UINT32_MOD }
        else s
      scan_loop counters fuel
        { s1 with i := (s.i + 1) % UINT32_MOD, visited := s.visited ++ [s.i] }
    else some s

/-- The counting loop from `hit_edges = 0`, `total_hits = 0`, `i = 0`. -/
def test_counters_scan (counters : ksancov_counters) (fuel : Nat) : Option scan_state :=
  scan_loop counters fuel { i := 0, hit_edges := 0, total_hits := 0, visited := [] }

/-- State of the listing loop of `test_counters_mode`: the loop variable, the
number of lines shown, the lines printed, and the indices at which
`edgemap->ke_addrs` was read, in order. -/
structure listing_state where
  i : Nat
  shown : Nat
  out : List Event
  ke_reads : List Nat
  deriving DecidableEq, Repr

/-- The address `test_counters_mode` takes for edge `j`:
`edgemap ? edgemap->ke_addrs[j] : 0`, with `none` for a `NULL` pointer. -/
def listed_addr (edgemap : Option ksancov_edgemap) (j : Nat) : Nat :=
  match edgemap with
  | some e => e.ke_addrs j
  | none => 0

/-- The slots of `edgemap->ke_addrs` read by `edgemap ? edgemap->ke_addrs[j] : 0`. -/
def listed_addr_reads (edgemap : Option ksancov_edgemap) (j : Nat) : List Nat :=
  match edgemap with
  | some _ => [j]
  | none => []

/-- The listing loop of `test_counters_mode`,
`for (uint32_t i = 0; i < counters->kc_nedges && shown < 10; i++)`; `edgemap` is
`none` for a `NULL` pointer.  It answers `none` when the fuel runs out. -/
def listing_loop (counters : ksancov_counters) (edgemap : Option ksancov_edgemap) :
    Nat → listing_state → Option listing_state
  | 0, _ => none
  | fuel + 1, s =>
    if s.i < counters.kc_nedges ∧ s.shown < 10 then
      if counters.kc_hits s.i > 0 then
        let addr := listed_addr edgemap s.i
        listing_loop counters edgemap fuel
          { i := (s.i + 1) % UINT32_MOD
            shown := (s.shown + 1) % UINT32_MOD
            out := s.out ++ [Event.print_edge s.i (counters.kc_hits s.i) addr]
            ke_reads := s.ke_reads ++ listed_addr_reads edgemap s.i }
      else
        listing_loop counters edgemap fuel { s with i := (s.i + 1) % UINT32_MOD }
    else some s

/-- The listing loop from `shown = 0`, `i = 0`. -/
def test_counters_listing (counters : ksancov_counters) (edgemap : Option ksancov_edgemap)
    (fuel : Nat) : Option listing_state :=
  listing_loop counters edgemap fuel { i := 0, shown := 0, out := [], ke_reads := [] }

/-- The `test_counters_mode`: what the run did, in order; `none` when one of
its loops does not come to an end. -/
def test_counters_mode (dev : Device) (l : Locals) : Option (List Event) :=
  let fd := ksancov_open dev
  let ev := [Event.ev_open 0]
  if fd < 0 then some (ev ++ [Event.ev_open_failed])
  else
  let ret := ksancov_mode_counters dev fd
  let ev := ev ++ [Event.ev_ioctl ksancov_ioc.COUNTERS 0]
  if ret ≠ 0 then some (ev ++ [Event.ev_failed ksancov_ioc.COUNTERS ret, Event.ev_close])
  else
  let m := ksancov_map dev fd l.buf (some l.sz)
  let ev := ev ++ [Event.ev_ioctl ksancov_ioc.MAP 0]
  if m.ret ≠ 0 then some (ev ++ [Event.ev_failed ksancov_ioc.MAP m.ret, Event.ev_close])
  else
  let buf_addr := m.buf
  let counters := dev.counters_at buf_addr
  let ev := ev ++ [Event.print_mapped_count buf_addr (m.sz.getD l.sz) counters.kc_nedges]
  let em := ksancov_map_edgemap dev fd l.edgemap_buf none
  let ev := ev ++ [Event.ev_ioctl ksancov_ioc.MAP_EDGEMAP 0]
  let edgemap : Nat := if em.ret = 0 then em.buf else 0
  let ret := ksancov_thread_self dev fd
  let ev := ev ++ [Event.ev_ioctl ksancov_ioc.START 0]
  if ret ≠ 0 then some (ev ++ [Event.ev_failed ksancov_ioc.START ret, Event.ev_close])
  else
  let c1 := start_counters (ksancov_reset_counters counters)
  let c2 := dev.kernel_counters c1
  let c3 := stop_counters c2
  let ev := ev ++ [Event.ev_reset, Event.ev_start, Event.ev_workload, Event.ev_stop]
  match test_counters_scan c3 (c3.kc_nedges + 1) with
  | none => none
  | some sc =>
    let ev := ev ++ [Event.print_totals c3.kc_nedges sc.hit_edges sc.total_hits]
    if sc.hit_edges > 0 then
      match test_counters_listing c3
          (if edgemap ≠ 0 then some (dev.edgemap_at edgemap) else none)
          (c3.kc_nedges + 1) with
      | none => none
      | some ls => some (ev ++ ls.out ++ [Event.ev_close])
    else some (ev ++ [Event.ev_close])

end Test

/-- The line `test_counters_mode` prints for a hit edge `j`. -/
def Test.edge_line (counters : ksancov_counters) (edgemap : Option ksancov_edgemap)
    (j : Nat) : Event :=
  Event.print_edge j (counters.kc_hits j) (Test.listed_addr edgemap j)

/-- The indices below `kc_nedges` whose counter is non-zero, in increasing
order. -/
def hit_indices (counters : ksancov_counters) : List Nat :=
  (List.range counters.kc_nedges).filter (fun j => decide (counters.kc_hits j > 0))

/-- A counters-mode session on which everything but the edge-map mapping
succeeds: `open(KSANCOV_PATH, flags)` gives a descriptor, the set-counters-mode,
map-data-buffer and bind-current-thread control operations succeed on it, and
the map-edgemap control operation fails with code `e`. -/
def counters_session_without_edgemap (dev : Device) (flags : Nat) (e : Int) : Prop :=
  0 ≤ dev.openat flags ∧
  (dev.ioctl (dev.openat flags) ksancov_ioc.COUNTERS 0).succeeds ∧
  (dev.ioctl (dev.openat flags) ksancov_ioc.MAP 0).succeeds ∧
  (dev.ioctl (dev.openat flags) ksancov_ioc.START 0).succeeds ∧
  (dev.ioctl (dev.openat flags) ksancov_ioc.MAP_EDGEMAP 0).fails_with e

instance (dev : Device) (flags : Nat) (e : Int) :
    Decidable (counters_session_without_edgemap dev flags e) := by
  unfold counters_session_without_edgemap
  infer_instance

/-- The counters buffer that `test_counters_mode` reads after `ksancov_stop`:
the buffer mapped at `p`, reset, started, written by the kernel during the
workload, then stopped. -/
def Test.counters_after_run (dev : Device) (p : Nat) : ksancov_counters :=
  Test.stop_counters (dev.kernel_counters
    (Test.start_counters (Test.ksancov_reset_counters (dev.counters_at p))))

/-! ## Sequences of `start` / `stop` calls -/

/-- One call of the collection session on a mapped buffer. -/
inductive session_op where
  | op_start
  | op_stop
  deriving DecidableEq, Repr

/-- A sequence of `ksancov_start` / `ksancov_stop` calls of `ksancov_example.c`
on a trace buffer, first call first. -/
def Example.run_ops (ops : List session_op) (t : ksancov_trace) : ksancov_trace :=
  ops.foldl (fun b op =>
    match op with
    | session_op.op_start => Example.start_trace b
    | session_op.op_stop => Example.stop_trace b) t

/-- A sequence of `ksancov_start` / `ksancov_stop` calls of
`simple_coverage_test.c` on a trace buffer, first call first. -/
def Test.run_ops (ops : List session_op) (t : ksancov_trace) : ksancov_trace :=
  ops.foldl (fun b op =>
    match op with
    | session_op.op_start => Test.start_trace b
    | session_op.op_stop => Test.stop_trace b) t

/-! ## Sample buffers and devices -/

/-- A trace buffer of capacity 1 whose head the kernel has advanced to 2; the
memory right after its only slot holds `0xdead`. -/
def overflowed_trace : ksancov_trace :=
  { kt_hdr := { kh_magic := 0x5AD17F5B, kh_enabled := 0 }
    kt_maxent := 1
    kt_head := 2
    kt_entries := fun i => if i = 1 then 0xdead else 0 }

/-- An empty trace buffer of capacity 65536. -/
def sample_trace : ksancov_trace :=
  { kt_hdr := { kh_magic := 0x5AD17F5B, kh_enabled := 0 }
    kt_maxent := 65536
    kt_head := 0
    kt_entries := fun _ => 0 }

/-- A kernel writer that appends the three entries `0x1000, 0x1001, 0x1002`. -/
def sample_kernel_trace (t : ksancov_trace) : ksancov_trace :=
  { t with
    kt_head := 3
    kt_entries := fun i => if i < 3 then 0x1000 + i else t.kt_entries i }

/-- A counters buffer of 8 edges, all counters 0. -/
def sample_counters : ksancov_counters :=
  { kc_hdr := { kh_magic := 0x5AD27F6B, kh_enabled := 0 }
    kc_nedges := 8
    kc_hits := fun _ => 0 }

/-- A kernel writer that records the hits 2, 5, 5. -/
def sample_kernel_counters (c : ksancov_counters) : ksancov_counters :=
  { c with kc_hits := fun i => if i = 2 then 1 else if i = 5 then 2 else c.kc_hits i }

/-- An edge map of 8 edges. -/
def sample_edgemap : ksancov_edgemap :=
  { ke_magic := 0x5AD37F7B
    ke_nedges := 8
    ke_addrs := fun i => 0xffff0000 + 16 * i }

/-- A successful answer carrying a descriptor and an edge count. -/
def answer_ok (ptr sz out : Nat) : ioctl_result :=
  { ret := 0, errno := 0, mc := { ptr := ptr, sz := sz }, out := out }

/-- A failed answer with error code `e`; the parameter block is left zeroed. -/
def answer_fail (e : Int) : ioctl_result :=
  { ret := -1, errno := e, mc := { ptr := 0, sz := 0 }, out := 0 }

/-- A device that opens as descriptor 3, accepts every control operation
except `KSANCOV_IOC_MAP_EDGEMAP`, which it answers with `edgemap_answer`, and
maps the data buffer at `0x1000`. -/
def sample_device (edgemap_answer : ioctl_result) : Device :=
  { openat := fun _ => 3
    open_errno := fun _ => 0
    ioctl := fun _ req _ =>
      match req with
      | ksancov_ioc.MAP => answer_ok 0x1000 4096 0
      | ksancov_ioc.MAP_EDGEMAP => edgemap_answer
      | ksancov_ioc.NEDGES => answer_ok 0 0 8
      | _ => answer_ok 0 0 0
    trace_at := fun _ => sample_trace
    counters_at := fun _ => sample_counters
    edgemap_at := fun _ => sample_edgemap
    kernel_trace := sample_kernel_trace
    kernel_counters := sample_kernel_counters
    errno_at_return := fun e => e }

/-- The sample device answering `KSANCOV_IOC_MAP_EDGEMAP` with a mapping at
`0x2000`. -/
def accepting_device : Device :=
  sample_device (answer_ok 0x2000 4096 0)

/-- The sample device failing `KSANCOV_IOC_MAP_EDGEMAP` with `ENOTSUP` (45). -/
def device_without_edgemap : Device :=
  sample_device (answer_fail 45)

/-- Uninitialised locals all holding 0. -/
def zero_locals : Locals :=
  { buf := 0, sz := 0, edgemap_buf := 0, edgemap_sz := 0 }

/-! ## Reads of the edge map's address table -/

/-- The slots of `kemap->ke_addrs` that `ksancov_edge_addr(kemap, idx)` reads:
none on the early return, slot `idx` otherwise. -/
def Example.ksancov_edge_addr_reads (kemap : ksancov_edgemap) (idx : Nat) : List Nat :=
  if idx ≥ kemap.ke_nedges then [] else [idx]

/-- The slots of `edgemap->ke_addrs` read by the listing loop of
`example_counters_mode`, in order: one call of `ksancov_edge_addr(edgemap, i)`
in every iteration. -/
def Example.example_counters_listing_reads (counters : ksancov_counters)
    (edgemap : ksancov_edgemap) : List Nat :=
  (List.range (min counters.kc_nedges 20)).flatMap
    (fun i => Example.ksancov_edge_addr_reads edgemap i)

/-- An edge map of 4 edges; the memory after its table holds other data. -/
def short_edgemap : ksancov_edgemap :=
  { ke_magic := 0x5AD37F7B
    ke_nedges := 4
    ke_addrs := fun i => if i < 4 then 0xffff0000 + 16 * i else 0xdead0000 + i }

/-- The accepting device with the 4-edge edge map mapped at `0x2000`, next to
the 8-edge counters buffer. -/
def device_with_short_edgemap : Device :=
  { accepting_device with edgemap_at := fun _ => short_edgemap }

/-! ## Theorems -/

/-- C1: `ksancov_trace_head` returns `min(kt_head, kt_maxent)` for every trace
buffer, so its result never exceeds `kt_maxent`, whatever `kt_head` holds; the
inline clamp of `test_trace_mode` computes the same value. -/
theorem C1_trace_head_is_clamped_min (t : ksancov_trace) :
    Example.ksancov_trace_head t = min t.kt_head t.kt_maxent ∧
    Example.ksancov_trace_head t ≤ t.kt_maxent ∧
    Test.test_trace_mode_head t = Example.ksancov_trace_head t := by
  unfold Example.ksancov_trace_head Test.test_trace_mode_head
  refine ⟨?_, ?_, rfl⟩
  · by_cases h : t.kt_head < t.kt_maxent
    · simp [h, Nat.min_eq_left (Nat.le_of_lt h)]
    · simp [h, Nat.min_eq_right (Nat.le_of_not_lt h)]
  · by_cases h : t.kt_head < t.kt_maxent
    · simp [h, Nat.le_of_lt h]
    · simp [h]

/-- C2 (evaluation of the code at the failing input): on the trace buffer of
capacity 1 with stored head 2, index 1 is not below `ksancov_trace_head`, yet
`ksancov_trace_entry` does not return 0: it reads slot 1, past the capacity, and
returns what the memory holds there. -/
theorem C2_trace_entry_reads_past_clamped_head :
    Example.ksancov_trace_head overflowed_trace = 1 ∧
    1 ≥ Example.ksancov_trace_head overflowed_trace ∧
    Example.ksancov_trace_entry overflowed_trace 1 = 0xdead ∧
    Example.ksancov_trace_entry overflowed_trace 1 ≠ 0 ∧
    Example.ksancov_trace_entry_reads overflowed_trace 1 = [1] ∧
    overflowed_trace.kt_maxent ≤ 1 := by
  refine ⟨rfl, ?_, ?_, ?_, rfl, ?_⟩
  · decide
  · rfl
  · decide
  · decide

/-- Where the stored head is within the capacity, `ksancov_trace_entry` does
return 0 at every index not below `ksancov_trace_head`, reading no slot. -/
theorem trace_entry_zero_of_head_le_maxent (t : ksancov_trace) (i : Nat)
    (hcap : t.kt_head ≤ t.kt_maxent) (hi : i ≥ Example.ksancov_trace_head t) :
    Example.ksancov_trace_entry t i = 0 ∧ Example.ksancov_trace_entry_reads t i = [] := by
  have hhead : Example.ksancov_trace_head t = t.kt_head := by
    unfold Example.ksancov_trace_head
    by_cases h : t.kt_head < t.kt_maxent
    · simp [h]
    · simp only [h, if_false]; omega
  rw [hhead] at hi
  simp [Example.ksancov_trace_entry, Example.ksancov_trace_entry_reads, hi]

/-- C3: round trip.  If `N = vs.length` is below the capacity, `kt_head` is `N`
and slot `i` holds the 64-bit value `vs[i]` for every `i < N`, then after
`ksancov_stop` the head read is exactly `N` and `ksancov_trace_entry` gives
back `vs[i]` at every `i < N`; read in order the entries are the list `vs`. -/
theorem C3_trace_round_trip (t : ksancov_trace) (vs : List Nat)
    (hN : vs.length < t.kt_maxent)
    (hhead : t.kt_head = vs.length)
    (hbits : ∀ v ∈ vs, v < 2 ^ 64)
    (hslots : ∀ (i : Nat) (h : i < vs.length), t.kt_entries i = vs.get ⟨i, h⟩) :
    (Example.ksancov_stop t.kt_hdr).2 = 0 ∧
    Example.ksancov_trace_head (Example.stop_trace t) = vs.length ∧
    (∀ (i : Nat) (h : i < vs.length),
      Example.ksancov_trace_entry (Example.stop_trace t) i = vs.get ⟨i, h⟩) ∧
    (List.range (Example.ksancov_trace_head (Example.stop_trace t))).map
      (Example.ksancov_trace_entry (Example.stop_trace t)) = vs := by
  have hh : Example.ksancov_trace_head (Example.stop_trace t) = vs.length := by
    simp [Example.ksancov_trace_head, Example.stop_trace, hhead, hN]
  have hent : ∀ (i : Nat) (h : i < vs.length),
      Example.ksancov_trace_entry (Example.stop_trace t) i = vs.get ⟨i, h⟩ := by
    intro i h
    have hv : vs.get ⟨i, h⟩ < 2 ^ 64 := hbits _ (List.get_mem vs i h)
    have hlt : ¬ (i ≥ vs.length) := Nat.not_le.mpr h
    simp only [Example.ksancov_trace_entry, Example.stop_trace, hhead, hlt, if_false,
      hslots i h, UINTPTR_MOD]
    exact Nat.mod_eq_of_lt hv
  refine ⟨rfl, hh, hent, ?_⟩
  rw [hh]
  apply List.ext_get
  · simp
  · intro n h1 h2
    simp only [List.get_eq_getElem, List.getElem_map, List.getElem_range]
    exact hent n h2

/-- Witness of C3 on a buffer of capacity 4 holding the two entries 7 and 9. -/
theorem C3_trace_round_trip_witness :
    Example.ksancov_trace_head (Example.stop_trace
      { kt_hdr := { kh_magic := 0x5AD17F5B, kh_enabled := 1 }, kt_maxent := 4, kt_head := 2,
        kt_entries := fun i => if i = 0 then 7 else if i = 1 then 9 else 0 }) = 2 :=
  (C3_trace_round_trip
    { kt_hdr := { kh_magic := 0x5AD17F5B, kh_enabled := 1 }, kt_maxent := 4, kt_head := 2,
      kt_entries := fun i => if i = 0 then 7 else if i = 1 then 9 else 0 }
    [7, 9] (by decide) rfl (by decide)
    (by
      intro i h
      have h2 : i < 2 := h
      interval_cases i <;> rfl)).2.1

/-- C4: each control wrapper of either program hands the platform error code
through unchanged and answers 0 on success.  If the control operation fails
with code `e` the wrapper returns `e` (the map wrappers leave `*buf` and `*sz`
as they were); if it succeeds the wrapper returns 0 (the map wrappers store the
device-reported pointer in `*buf` and, where `sz` is not `NULL`, the
device-reported size in `*sz`). -/
theorem C4_wrappers_propagate_error_code (dev : Device) (fd : Int) (entries buf : Nat)
    (sz : Option Nat) (e : Int) :
    (((dev.ioctl fd ksancov_ioc.MAP 0).fails_with e →
        Example.ksancov_map dev fd buf sz = { ret := e, buf := buf, sz := sz } ∧
        Test.ksancov_map dev fd buf sz = { ret := e, buf := buf, sz := sz }) ∧
     ((dev.ioctl fd ksancov_ioc.MAP 0).succeeds →
        Example.ksancov_map dev fd buf sz =
          { ret := 0, buf := (dev.ioctl fd ksancov_ioc.MAP 0).mc.ptr,
            sz := sz.map (fun _ => (dev.ioctl fd ksancov_ioc.MAP 0).mc.sz) } ∧
        Test.ksancov_map dev fd buf sz = Example.ksancov_map dev fd buf sz)) ∧
    (((dev.ioctl fd ksancov_ioc.MAP_EDGEMAP 0).fails_with e →
        Example.ksancov_map_edgemap dev fd buf sz = { ret := e, buf := buf, sz := sz } ∧
        Test.ksancov_map_edgemap dev fd buf sz = { ret := e, buf := buf, sz := sz }) ∧
     ((dev.ioctl fd ksancov_ioc.MAP_EDGEMAP 0).succeeds →
        Example.ksancov_map_edgemap dev fd buf sz =
          { ret := 0, buf := (dev.ioctl fd ksancov_ioc.MAP_EDGEMAP 0).mc.ptr,
            sz := sz.map (fun _ => (dev.ioctl fd ksancov_ioc.MAP_EDGEMAP 0).mc.sz) } ∧
        Test.ksancov_map_edgemap dev fd buf sz =
          Example.ksancov_map_edgemap dev fd buf sz)) ∧
    (((dev.ioctl fd ksancov_ioc.TRACE entries).fails_with e →
        Example.ksancov_mode_trace dev fd entries = e ∧
        Test.ksancov_mode_trace dev fd entries = e) ∧
     ((dev.ioctl fd ksancov_ioc.TRACE entries).succeeds →
        Example.ksancov_mode_trace dev fd entries = 0 ∧
        Test.ksancov_mode_trace dev fd entries = 0)) ∧
    (((dev.ioctl fd ksancov_ioc.COUNTERS 0).fails_with e →
        Example.ksancov_mode_counters dev fd = e ∧ Test.ksancov_mode_counters dev fd = e) ∧
     ((dev.ioctl fd ksancov_ioc.COUNTERS 0).succeeds →
        Example.ksancov_mode_counters dev fd = 0 ∧ Test.ksancov_mode_counters dev fd = 0)) ∧
    (((dev.ioctl fd ksancov_ioc.START 0).fails_with e →
        Example.ksancov_thread_self dev fd = e ∧ Test.ksancov_thread_self dev fd = e) ∧
     ((dev.ioctl fd ksancov_ioc.START 0).succeeds →
        Example.ksancov_thread_self dev fd = 0 ∧ Test.ksancov_thread_self dev fd = 0)) := by
  refine ⟨⟨?_, ?_⟩, ⟨?_, ?_⟩, ⟨?_, ?_⟩, ⟨?_, ?_⟩, ⟨?_, ?_⟩⟩
  · rintro ⟨hr, he⟩
    simp [Example.ksancov_map, Test.ksancov_map, hr, he]
  · intro hs
    have hr : ¬ (dev.ioctl fd ksancov_ioc.MAP 0).ret = -1 := hs
    simp [Example.ksancov_map, Test.ksancov_map, hr]
  · rintro ⟨hr, he⟩
    simp [Example.ksancov_map_edgemap, Test.ksancov_map_edgemap, hr, he]
  · intro hs
    have hr : ¬ (dev.ioctl fd ksancov_ioc.MAP_EDGEMAP 0).ret = -1 := hs
    simp [Example.ksancov_map_edgemap, Test.ksancov_map_edgemap, hr]
  · rintro ⟨hr, he⟩
    simp [Example.ksancov_mode_trace, Test.ksancov_mode_trace, hr, he]
  · intro hs
    have hr : ¬ (dev.ioctl fd ksancov_ioc.TRACE entries).ret = -1 := hs
    simp [Example.ksancov_mode_trace, Test.ksancov_mode_trace, hr]
  · rintro ⟨hr, he⟩
    simp [Example.ksancov_mode_counters, Test.ksancov_mode_counters, hr, he]
  · intro hs
    have hr : ¬ (dev.ioctl fd ksancov_ioc.COUNTERS 0).ret = -1 := hs
    simp [Example.ksancov_mode_counters, Test.ksancov_mode_counters, hr]
  · rintro ⟨hr, he⟩
    simp [Example.ksancov_thread_self, Test.ksancov_thread_self, hr, he]
  · intro hs
    have hr : ¬ (dev.ioctl fd ksancov_ioc.START 0).ret = -1 := hs
    simp [Example.ksancov_thread_self, Test.ksancov_thread_self, hr]

/-- Witness of C4 on the device whose edge-map mapping fails with code 45 and
whose data-buffer mapping succeeds at `0x1000`: the edge-map wrapper returns 45
and leaves the outputs alone, the data-buffer wrapper returns 0 and stores the
pointer and the size. -/
theorem C4_wrappers_propagate_error_code_witness :
    Example.ksancov_map_edgemap device_without_edgemap 3 7 (some 9) =
      { ret := 45, buf := 7, sz := some 9 } ∧
    Example.ksancov_map device_without_edgemap 3 7 (some 9) =
      { ret := 0, buf := 0x1000, sz := some 4096 } :=
  ⟨((C4_wrappers_propagate_error_code device_without_edgemap 3 0 7 (some 9) 45).2.1.1
      ⟨rfl, rfl⟩).1,
   ((C4_wrappers_propagate_error_code device_without_edgemap 3 0 7 (some 9) 45).1.2
      (by decide)).1⟩

/-- C5 (counterexample): on a device that accepts the trace-mode control
operation, `ksancov_mode_trace(fd, 0)` returns 0, that is success, in both
programs. -/
theorem C5_zero_capacity_accepted :
    (accepting_device.ioctl 3 ksancov_ioc.TRACE 0).succeeds ∧
    Example.ksancov_mode_trace accepting_device 3 0 = 0 ∧
    Test.ksancov_mode_trace accepting_device 3 0 = 0 := by
  refine ⟨?_, rfl, rfl⟩
  decide

/-- C5 (amended): `ksancov_mode_trace` does not inspect its capacity argument.
With capacity 0, as with any other, it returns the device's error code when the
trace-mode control operation fails and 0 when it succeeds, so the result is
decided by the device's answer alone. -/
theorem C5_zero_capacity_follows_device (dev : Device) (fd : Int) (e : Int) :
    ((dev.ioctl fd ksancov_ioc.TRACE 0).fails_with e →
      Example.ksancov_mode_trace dev fd 0 = e ∧ Test.ksancov_mode_trace dev fd 0 = e) ∧
    ((dev.ioctl fd ksancov_ioc.TRACE 0).succeeds →
      Example.ksancov_mode_trace dev fd 0 = 0 ∧ Test.ksancov_mode_trace dev fd 0 = 0) := by
  constructor
  · rintro ⟨hr, he⟩
    simp [Example.ksancov_mode_trace, Test.ksancov_mode_trace, hr, he]
  · intro hs
    have hr : ¬ (dev.ioctl fd ksancov_ioc.TRACE 0).ret = -1 := hs
    simp [Example.ksancov_mode_trace, Test.ksancov_mode_trace, hr]

/-- Witness of C5 (amended) on a device that refuses every trace-mode request
with `EINVAL` (22), and on the accepting device. -/
theorem C5_zero_capacity_follows_device_witness :
    Example.ksancov_mode_trace
      { accepting_device with ioctl := fun _ _ _ => answer_fail 22 } 3 0 = 22 ∧
    Test.ksancov_mode_trace accepting_device 3 0 = 0 :=
  ⟨((C5_zero_capacity_follows_device
      { accepting_device with ioctl := fun _ _ _ => answer_fail 22 } 3 22).1 ⟨rfl, rfl⟩).1,
   ((C5_zero_capacity_follows_device accepting_device 3 0).2 (by decide)).2⟩

/-! ### The loops of `test_counters_mode` -/

/-- The counting loop, started at index `s.i` with `k` indices left and more
fuel than that, comes to an end and has then visited exactly those `k` indices
in order, counted the non-zero counters among them and added them up modulo
`2^32`. -/
theorem Test.scan_loop_spec (c : ksancov_counters) (hn : c.kc_nedges < UINT32_MOD) :
    ∀ (k fuel : Nat) (s : Test.scan_state), s.i + k = c.kc_nedges → k < fuel →
      s.hit_edges + k < UINT32_MOD → s.total_hits < UINT32_MOD →
      Test.scan_loop c fuel s = some
        { i := c.kc_nedges
          hit_edges := s.hit_edges +
            ((List.range' s.i k).filter (fun j => decide (c.kc_hits j > 0))).length
          total_hits := (s.total_hits + ((List.range' s.i k).map c.kc_hits).sum) % UINT32_MOD
          visited := s.visited ++ List.range' s.i k } := by
  intro k
  induction k with
  | zero =>
    intro fuel s hi hf _ ht
    obtain ⟨f, rfl⟩ : ∃ f, fuel = f + 1 := ⟨fuel - 1, by omega⟩
    have hlt : ¬ (s.i < c.kc_nedges) := by omega
    have hieq : s.i = c.kc_nedges := by omega
    simp only [Test.scan_loop, hlt, if_false, List.range'_zero, List.filter_nil,
      List.length_nil, List.map_nil, List.sum_nil, Nat.add_zero, List.append_nil,
      Nat.mod_eq_of_lt ht]
    rw [← hieq]
  | succ k ih =>
    intro fuel s hi hf hh ht
    obtain ⟨f, rfl⟩ : ∃ f, fuel = f + 1 := ⟨fuel - 1, by omega⟩
    have hlt : s.i < c.kc_nedges := by omega
    have hwrap : (s.i + 1) % UINT32_MOD = s.i + 1 := Nat.mod_eq_of_lt (by omega)
    have hM : 0 < UINT32_MOD := by unfold UINT32_MOD; decide
    by_cases hit : c.kc_hits s.i > 0
    · have hcnt : (s.hit_edges + 1) % UINT32_MOD = s.hit_edges + 1 :=
        Nat.mod_eq_of_lt (by omega)
      have key := ih f
        { i := s.i + 1, hit_edges := s.hit_edges + 1,
          total_hits := (s.total_hits + c.kc_hits s.i) % UINT32_MOD,
          visited := s.visited ++ [s.i] }
        (by simp only; omega) (by omega) (by simp only; omega) (Nat.mod_lt _ hM)
      simp only [Test.scan_loop, hlt, if_true, hit, hwrap, hcnt]
      rw [key]
      simp only [List.range'_succ, List.filter_cons, hit, decide_True, if_true,
        List.length_cons, List.map_cons, List.sum_cons, Nat.mod_add_mod, List.append_assoc,
        List.singleton_append]
      congr 2
      · omega
      · rw [Nat.add_assoc]
    · have hz : c.kc_hits s.i = 0 := by omega
      have key := ih f
        { i := s.i + 1, hit_edges := s.hit_edges, total_hits := s.total_hits,
          visited := s.visited ++ [s.i] }
        (by simp only; omega) (by omega) (by simp only; omega) ht
      simp only [Test.scan_loop, hlt, if_true, hit, if_false, hwrap]
      rw [key]
      simp only [List.range'_succ, List.filter_cons, hit, decide_False, List.map_cons,
        List.sum_cons, hz, Nat.zero_add, List.append_assoc, List.singleton_append]
      rfl

/-- The listing loop, started at index `s.i` with `k` indices left, `shown`
at most 10 and more fuel than `k`, comes to an end; it has then printed one
line for each of the first `10 - shown` hit edges among those indices, in
order, and has read the edge map (when there is one) at exactly those
indices. -/
theorem Test.listing_loop_spec (c : ksancov_counters) (em : Option ksancov_edgemap)
    (hn : c.kc_nedges < UINT32_MOD) :
    ∀ (k fuel : Nat) (s : Test.listing_state), s.i + k = c.kc_nedges → k < fuel →
      s.shown ≤ 10 →
      ∃ r, Test.listing_loop c em fuel s = some r ∧
        r.out = s.out ++
          (((List.range' s.i k).filter (fun j => decide (c.kc_hits j > 0))).take
            (10 - s.shown)).map (Test.edge_line c em) ∧
        r.ke_reads = s.ke_reads ++
          (if em.isSome then
            ((List.range' s.i k).filter (fun j => decide (c.kc_hits j > 0))).take
              (10 - s.shown)
           else []) := by
  intro k
  induction k with
  | zero =>
    intro fuel s hi hf _
    obtain ⟨f, rfl⟩ : ∃ f, fuel = f + 1 := ⟨fuel - 1, by omega⟩
    have hlt : ¬ (s.i < c.kc_nedges) := by omega
    refine ⟨s, ?_, ?_, ?_⟩
    · simp only [Test.listing_loop, hlt, false_and, if_false]
    · simp
    · simp
  | succ k ih =>
    intro fuel s hi hf hs
    obtain ⟨f, rfl⟩ : ∃ f, fuel = f + 1 := ⟨fuel - 1, by omega⟩
    have hlt : s.i < c.kc_nedges := by omega
    have hwrap : (s.i + 1) % UINT32_MOD = s.i + 1 := Nat.mod_eq_of_lt (by omega)
    by_cases hshown : s.shown < 10
    · have hsw : (s.shown + 1) % UINT32_MOD = s.shown + 1 :=
        Nat.mod_eq_of_lt (by unfold UINT32_MOD; omega)
      have htake : 10 - s.shown = (10 - (s.shown + 1)) + 1 := by omega
      by_cases hit : c.kc_hits s.i > 0
      · obtain ⟨r, hr, hout, hreads⟩ := ih f
          { i := s.i + 1, shown := s.shown + 1,
            out := s.out ++ [Test.edge_line c em s.i],
            ke_reads := s.ke_reads ++ Test.listed_addr_reads em s.i }
          (by simp only; omega) (by omega) (by simp only; omega)
        refine ⟨r, ?_, ?_, ?_⟩
        · simp only [Test.listing_loop, hlt, hshown, and_self, if_true, hit, hwrap, hsw]
          exact hr
        · rw [hout]
          simp only [List.range'_succ, List.filter_cons, hit, decide_True, if_true]
          rw [htake, List.take_succ_cons]
          simp
        · rw [hreads]
          simp only [List.range'_succ, List.filter_cons, hit, decide_True, if_true]
          rw [htake, List.take_succ_cons]
          cases em <;> simp [Test.listed_addr_reads]
      · obtain ⟨r, hr, hout, hreads⟩ := ih f { s with i := s.i + 1 }
          (by simp only; omega) (by omega) hs
        refine ⟨r, ?_, ?_, ?_⟩
        · simp only [Test.listing_loop, hlt, hshown, and_self, if_true, hit, if_false, hwrap]
          exact hr
        · rw [hout]
          simp only [List.range'_succ, List.filter_cons, hit, decide_False]
          rfl
        · rw [hreads]
          simp only [List.range'_succ, List.filter_cons, hit, decide_False]
          rfl
    · have h10 : 10 - s.shown = 0 := by omega
      refine ⟨s, ?_, ?_, ?_⟩
      · simp only [Test.listing_loop, hshown, and_false, if_false]
      · simp [h10]
      · simp [h10]

/-- Closed form of the counting loop with enough fuel. -/
theorem Test.test_counters_scan_eq (c : ksancov_counters) (hn : c.kc_nedges < UINT32_MOD)
    (fuel : Nat) (hf : c.kc_nedges < fuel) :
    Test.test_counters_scan c fuel = some
      { i := c.kc_nedges
        hit_edges := (hit_indices c).length
        total_hits := ((List.range c.kc_nedges).map c.kc_hits).sum % UINT32_MOD
        visited := List.range c.kc_nedges } := by
  have hscan := Test.scan_loop_spec c hn c.kc_nedges fuel
    { i := 0, hit_edges := 0, total_hits := 0, visited := [] }
    (by simp) hf (by simpa using hn) (by unfold UINT32_MOD; decide)
  simp only [Nat.zero_add, List.nil_append, ← List.range_eq_range'] at hscan
  exact hscan

/-- Closed form of the listing loop with enough fuel: the first 10 hit edges,
each with the address taken from the edge map, or 0 without one. -/
theorem Test.test_counters_listing_eq (c : ksancov_counters) (em : Option ksancov_edgemap)
    (hn : c.kc_nedges < UINT32_MOD) (fuel : Nat) (hf : c.kc_nedges < fuel) :
    ∃ r, Test.test_counters_listing c em fuel = some r ∧
      r.out = ((hit_indices c).take 10).map (Test.edge_line c em) ∧
      r.ke_reads = if em.isSome then (hit_indices c).take 10 else [] := by
  obtain ⟨r, hr, hout, hreads⟩ := Test.listing_loop_spec c em hn c.kc_nedges fuel
    { i := 0, shown := 0, out := [], ke_reads := [] } (by simp) hf (by simp)
  refine ⟨r, hr, ?_, ?_⟩
  · rw [hout]
    simp only [← List.range_eq_range', List.nil_append]
    rfl
  · rw [hreads]
    simp only [← List.range_eq_range', List.nil_append]
    rfl

/-- In a counters buffer of more than 5 edges whose counters below `kc_nedges`
are 1 at edge 2, 2 at edge 5 and 0 elsewhere, the hit edges are 2 and 5. -/
theorem hit_indices_two_five (c : ksancov_counters) (h5 : 5 < c.kc_nedges)
    (hhits : ∀ i, i < c.kc_nedges →
      c.kc_hits i = if i = 2 then 1 else if i = 5 then 2 else 0) :
    hit_indices c = [2, 5] := by
  have hgen : ∀ m : Nat,
      (List.range (6 + m)).filter (fun j => decide (j = 2 ∨ j = 5)) = [2, 5] := by
    intro m
    induction m with
    | zero => decide
    | succ m ih =>
      have hne : ¬ (6 + m = 2 ∨ 6 + m = 5) := by omega
      rw [← Nat.add_assoc, List.range_succ, List.filter_append, ih]
      simp [hne]
  obtain ⟨m, hm⟩ : ∃ m, c.kc_nedges = 6 + m := ⟨c.kc_nedges - 6, by omega⟩
  unfold hit_indices
  rw [← hgen m, ← hm]
  apply List.filter_congr
  intro x hx
  have hx2 : x < c.kc_nedges := List.mem_range.mp hx
  rw [hhits x hx2]
  by_cases h2 : x = 2
  · simp [h2]
  · by_cases h5 : x = 5
    · simp [h5]
    · simp [h2, h5]

/-- In the same buffer the counters below `kc_nedges` add up to 3. -/
theorem sum_hits_two_five (c : ksancov_counters) (h5 : 5 < c.kc_nedges)
    (hhits : ∀ i, i < c.kc_nedges →
      c.kc_hits i = if i = 2 then 1 else if i = 5 then 2 else 0) :
    ((List.range c.kc_nedges).map c.kc_hits).sum = 3 := by
  have hgen : ∀ m : Nat,
      ((List.range (6 + m)).map
        (fun i => if i = 2 then 1 else if i = 5 then 2 else 0)).sum = 3 := by
    intro m
    induction m with
    | zero => decide
    | succ m ih =>
      have h2 : ¬ (6 + m = 2) := by omega
      have h5 : ¬ (6 + m = 5) := by omega
      rw [← Nat.add_assoc, List.range_succ, List.map_append, List.sum_append, ih]
      simp [h2, h5]
  obtain ⟨m, hm⟩ : ∃ m, c.kc_nedges = 6 + m := ⟨c.kc_nedges - 6, by omega⟩
  rw [← hgen m, ← hm]
  congr 1
  apply List.map_congr_left
  intro x hx
  exact hhits x (List.mem_range.mp hx)

/-- C6 (counterexample): on a device where open, set-counters-mode,
map-data-buffer and bind-current-thread succeed and map-edgemap fails with
code 45, `example_counters_mode` does not return 0: it prints the failure,
closes the device and returns 45, without binding the thread, starting or
stopping collection, or reporting any hit count. -/
theorem C6_example_aborts_on_edgemap_failure :
    counters_session_without_edgemap device_without_edgemap O_RDWR 45 ∧
    Example.example_counters_mode device_without_edgemap zero_locals =
      (45, [Event.ev_open 2, Event.ev_ioctl ksancov_ioc.NEDGES 0, Event.print_nedges 8,
            Event.ev_ioctl ksancov_ioc.COUNTERS 0, Event.ev_ioctl ksancov_ioc.MAP 0,
            Event.print_mapped 0x1000 4096, Event.ev_ioctl ksancov_ioc.MAP_EDGEMAP 0,
            Event.ev_failed ksancov_ioc.MAP_EDGEMAP 45, Event.ev_close]) := by
  refine ⟨?_, ?_⟩
  · decide
  · decide

/-- C6 (amended): when the edge-map mapping fails with a non-zero code `e` in
an otherwise successful counters-mode session, `test_counters_mode` does not
abort: it binds the thread, resets, starts and stops collection, and reports
the totals and the first 10 hit edges, each with address 0; whereas
`example_counters_mode` treats the edge map as required: it prints the
failure, closes the device and returns `e`. -/
theorem C6_edgemap_failure_in_counters_session (dev : Device) (l : Locals) (e : Int)
    (he : e ≠ 0) :
    (counters_session_without_edgemap dev 0 e →
      (Test.counters_after_run dev
        (dev.ioctl (dev.openat 0) ksancov_ioc.MAP 0).mc.ptr).kc_nedges < UINT32_MOD →
      Test.test_counters_mode dev l = some
        ([Event.ev_open 0, Event.ev_ioctl ksancov_ioc.COUNTERS 0,
          Event.ev_ioctl ksancov_ioc.MAP 0,
          Event.print_mapped_count (dev.ioctl (dev.openat 0) ksancov_ioc.MAP 0).mc.ptr
            (dev.ioctl (dev.openat 0) ksancov_ioc.MAP 0).mc.sz
            (dev.counters_at (dev.ioctl (dev.openat 0) ksancov_ioc.MAP 0).mc.ptr).kc_nedges,
          Event.ev_ioctl ksancov_ioc.MAP_EDGEMAP 0, Event.ev_ioctl ksancov_ioc.START 0,
          Event.ev_reset, Event.ev_start, Event.ev_workload, Event.ev_stop,
          Event.print_totals
            (Test.counters_after_run dev
              (dev.ioctl (dev.openat 0) ksancov_ioc.MAP 0).mc.ptr).kc_nedges
            (hit_indices (Test.counters_after_run dev
              (dev.ioctl (dev.openat 0) ksancov_ioc.MAP 0).mc.ptr)).length
            (((List.range (Test.counters_after_run dev
                (dev.ioctl (dev.openat 0) ksancov_ioc.MAP 0).mc.ptr).kc_nedges).map
              (Test.counters_after_run dev
                (dev.ioctl (dev.openat 0) ksancov_ioc.MAP 0).mc.ptr).kc_hits).sum
              % UINT32_MOD)] ++
         ((hit_indices (Test.counters_after_run dev
            (dev.ioctl (dev.openat 0) ksancov_ioc.MAP 0).mc.ptr)).take 10).map
           (fun j => Event.print_edge j
             ((Test.counters_after_run dev
               (dev.ioctl (dev.openat 0) ksancov_ioc.MAP 0).mc.ptr).kc_hits j) 0) ++
         [Event.ev_close])) ∧
    (counters_session_without_edgemap dev O_RDWR e →
      Example.ksancov_nedges dev (dev.openat O_RDWR) ≠ SIZE_MAX →
      Example.example_counters_mode dev l =
        (e, [Event.ev_open O_RDWR, Event.ev_ioctl ksancov_ioc.NEDGES 0,
             Event.print_nedges (Example.ksancov_nedges dev (dev.openat O_RDWR)),
             Event.ev_ioctl ksancov_ioc.COUNTERS 0, Event.ev_ioctl ksancov_ioc.MAP 0,
             Event.print_mapped (dev.ioctl (dev.openat O_RDWR) ksancov_ioc.MAP 0).mc.ptr
               (dev.ioctl (dev.openat O_RDWR) ksancov_ioc.MAP 0).mc.sz,
             Event.ev_ioctl ksancov_ioc.MAP_EDGEMAP 0,
             Event.ev_failed ksancov_ioc.MAP_EDGEMAP e, Event.ev_close])) := by
  constructor
  · rintro ⟨hopen, hc, hm, hs, hr, hee⟩ hn
    have hfd : ¬ (dev.openat 0 < 0) := Int.not_lt.mpr hopen
    have hc1 : ¬ (dev.ioctl (dev.openat 0) ksancov_ioc.COUNTERS 0).ret = -1 := hc
    have hm1 : ¬ (dev.ioctl (dev.openat 0) ksancov_ioc.MAP 0).ret = -1 := hm
    have hs1 : ¬ (dev.ioctl (dev.openat 0) ksancov_ioc.START 0).ret = -1 := hs
    have hscan := Test.test_counters_scan_eq _ hn _ (Nat.lt_succ_self _)
    obtain ⟨r, hlist, hout, _⟩ :=
      Test.test_counters_listing_eq _ none hn _ (Nat.lt_succ_self _)
    simp only [Test.counters_after_run] at hscan hlist hout ⊢
    simp only [Test.test_counters_mode, Test.ksancov_open, Test.ksancov_mode_counters,
      Test.ksancov_map, Test.ksancov_map_edgemap, Test.ksancov_thread_self, hfd, hc1, hm1,
      hs1, hr, hee, he, if_false, if_true, ne_eq, not_true_eq_false, not_false_eq_true,
      Option.map_some', Option.getD_some, hscan, hlist]
    by_cases hpos : (hit_indices (Test.stop_counters (dev.kernel_counters
        (Test.start_counters (Test.ksancov_reset_counters (dev.counters_at
          (dev.ioctl (dev.openat 0) ksancov_ioc.MAP 0).mc.ptr)))))).length > 0
    · simp only [hpos, if_true, hout]
      simp [Test.edge_line, Test.listed_addr]
      rfl
    · have hnil : hit_indices (Test.stop_counters (dev.kernel_counters
          (Test.start_counters (Test.ksancov_reset_counters (dev.counters_at
            (dev.ioctl (dev.openat 0) ksancov_ioc.MAP 0).mc.ptr))))) = [] :=
        List.length_eq_zero.mp (by omega)
      simp only [hpos, if_false, hnil]
      simp
  · rintro ⟨hopen, hc, hm, _, hr, hee⟩ hne
    have hfd : ¬ (dev.openat O_RDWR < 0) := Int.not_lt.mpr hopen
    have hc1 : ¬ (dev.ioctl (dev.openat O_RDWR) ksancov_ioc.COUNTERS 0).ret = -1 := hc
    have hm1 : ¬ (dev.ioctl (dev.openat O_RDWR) ksancov_ioc.MAP 0).ret = -1 := hm
    simp only [Example.ksancov_open] at *
    simp [Example.example_counters_mode, Example.ksancov_open, Example.ksancov_mode_counters,
      Example.ksancov_map, Example.ksancov_map_edgemap, hfd, hc1, hm1, hr, hee, he, hne]

/-- Witness of C6 (amended) on the device whose edge-map mapping fails with
code 45: `test_counters_mode` runs to the end and lists the hit edges 2 and 5
with address 0. -/
theorem C6_edgemap_failure_in_counters_session_witness :
    Test.test_counters_mode device_without_edgemap zero_locals = some
      [Event.ev_open 0, Event.ev_ioctl ksancov_ioc.COUNTERS 0,
       Event.ev_ioctl ksancov_ioc.MAP 0, Event.print_mapped_count 0x1000 4096 8,
       Event.ev_ioctl ksancov_ioc.MAP_EDGEMAP 0, Event.ev_ioctl ksancov_ioc.START 0,
       Event.ev_reset, Event.ev_start, Event.ev_workload, Event.ev_stop,
       Event.print_totals 8 2 3, Event.print_edge 2 1 0, Event.print_edge 5 2 0,
       Event.ev_close] :=
  ((C6_edgemap_failure_in_counters_session device_without_edgemap zero_locals 45
      (by decide)).1 (by decide) (by decide)).trans (by decide)

/-- C7 (counterexample): on a device that accepts both the trace-mode and the
map-edgemap control operations, the session is configured in trace mode and
`ksancov_map_edgemap` still returns 0 with the device-reported pointer
`0x2000`; `test_trace_mode` then reads `ke_nedges` through that pointer and
prints it. -/
theorem C7_edgemap_accepted_in_trace_mode :
    Test.ksancov_mode_trace accepting_device 3 (64 * 1024) = 0 ∧
    Test.ksancov_map_edgemap accepting_device 3 zero_locals.edgemap_buf none =
      { ret := 0, buf := 0x2000, sz := none } ∧
    Test.test_trace_mode accepting_device zero_locals =
      [Event.ev_open 0, Event.ev_ioctl ksancov_ioc.TRACE 65536,
       Event.ev_ioctl ksancov_ioc.MAP 0, Event.print_mapped_count 0x1000 4096 65536,
       Event.ev_ioctl ksancov_ioc.MAP_EDGEMAP 0, Event.print_edgemap_nedges 0x2000 8,
       Event.ev_ioctl ksancov_ioc.START 0, Event.ev_reset, Event.ev_start,
       Event.ev_workload, Event.ev_stop, Event.print_head 3,
       Event.print_pc 0 0x1000, Event.print_pc 1 0x1001, Event.print_pc 2 0x1002,
       Event.ev_close] := by
  refine ⟨rfl, rfl, ?_⟩
  decide

/-- C7 (amended): `ksancov_map_edgemap` keeps no record of the session mode.
In a `test_trace_mode` session that has opened the device, configured trace
mode and mapped the data buffer, the wrapper returns the device's error code
when the map-edgemap control operation fails (the driver prints the failure
and reads no edge map) and returns 0 with the device-reported pointer when the
device accepts it (the driver then prints `ke_nedges` read through that
pointer); in both cases the driver goes on to bind the thread. -/
theorem C7_map_edgemap_follows_device (dev : Device) (l : Locals) (e : Int)
    (hopen : 0 ≤ dev.openat 0)
    (htrace : (dev.ioctl (dev.openat 0) ksancov_ioc.TRACE (64 * 1024)).succeeds)
    (hmap : (dev.ioctl (dev.openat 0) ksancov_ioc.MAP 0).succeeds) :
    ((dev.ioctl (dev.openat 0) ksancov_ioc.MAP_EDGEMAP 0).fails_with e → e ≠ 0 →
      Test.ksancov_map_edgemap dev (dev.openat 0) l.edgemap_buf none =
        { ret := e, buf := l.edgemap_buf, sz := none } ∧
      Event.ev_failed ksancov_ioc.MAP_EDGEMAP e ∈ Test.test_trace_mode dev l ∧
      (∀ a n, Event.print_edgemap_nedges a n ∉ Test.test_trace_mode dev l) ∧
      Event.ev_ioctl ksancov_ioc.START 0 ∈ Test.test_trace_mode dev l) ∧
    ((dev.ioctl (dev.openat 0) ksancov_ioc.MAP_EDGEMAP 0).succeeds →
      Test.ksancov_map_edgemap dev (dev.openat 0) l.edgemap_buf none =
        { ret := 0, buf := (dev.ioctl (dev.openat 0) ksancov_ioc.MAP_EDGEMAP 0).mc.ptr,
          sz := none } ∧
      Event.print_edgemap_nedges (dev.ioctl (dev.openat 0) ksancov_ioc.MAP_EDGEMAP 0).mc.ptr
        (dev.edgemap_at
          (dev.ioctl (dev.openat 0) ksancov_ioc.MAP_EDGEMAP 0).mc.ptr).ke_nedges ∈
        Test.test_trace_mode dev l ∧
      Event.ev_ioctl ksancov_ioc.START 0 ∈ Test.test_trace_mode dev l) := by
  have hfd : ¬ (dev.openat 0 < 0) := Int.not_lt.mpr hopen
  have ht : ¬ (dev.ioctl (dev.openat 0) ksancov_ioc.TRACE (64 * 1024)).ret = -1 := htrace
  have hm : ¬ (dev.ioctl (dev.openat 0) ksancov_ioc.MAP 0).ret = -1 := hmap
  constructor
  · rintro ⟨hr, he⟩ hne
    have hw : Test.ksancov_map_edgemap dev (dev.openat 0) l.edgemap_buf none =
        { ret := e, buf := l.edgemap_buf, sz := none } := by
      simp [Test.ksancov_map_edgemap, hr, he]
    refine ⟨hw, ?_, ?_, ?_⟩
    · simp only [Test.test_trace_mode, Test.ksancov_open, Test.ksancov_mode_trace,
        Test.ksancov_map, hfd, ht, hm, hw, if_false, ne_eq, not_true_eq_false, hne,
        not_false_eq_true, if_true]
      split_ifs <;> simp
    · intro a n
      simp only [Test.test_trace_mode, Test.ksancov_open, Test.ksancov_mode_trace,
        Test.ksancov_map, hfd, ht, hm, hw, if_false, ne_eq, not_true_eq_false, hne,
        not_false_eq_true, if_true]
      split_ifs <;> simp [Test.test_trace_mode_pcs]
    · simp only [Test.test_trace_mode, Test.ksancov_open, Test.ksancov_mode_trace,
        Test.ksancov_map, hfd, ht, hm, hw, if_false, ne_eq, not_true_eq_false, hne,
        not_false_eq_true, if_true]
      split_ifs <;> simp
  · intro hs
    have hr : ¬ (dev.ioctl (dev.openat 0) ksancov_ioc.MAP_EDGEMAP 0).ret = -1 := hs
    have hw : Test.ksancov_map_edgemap dev (dev.openat 0) l.edgemap_buf none =
        { ret := 0, buf := (dev.ioctl (dev.openat 0) ksancov_ioc.MAP_EDGEMAP 0).mc.ptr,
          sz := none } := by
      simp [Test.ksancov_map_edgemap, hr]
    refine ⟨hw, ?_, ?_⟩
    · simp only [Test.test_trace_mode, Test.ksancov_open, Test.ksancov_mode_trace,
        Test.ksancov_map, hfd, ht, hm, hw, if_false, ne_eq, not_true_eq_false,
        not_false_eq_true, if_true]
      split_ifs <;> simp
    · simp only [Test.test_trace_mode, Test.ksancov_open, Test.ksancov_mode_trace,
        Test.ksancov_map, hfd, ht, hm, hw, if_false, ne_eq, not_true_eq_false,
        not_false_eq_true, if_true]
      split_ifs <;> simp

/-- Witness of C7 (amended) on the accepting device: the wrapper returns 0 with
the pointer `0x2000` in a trace-mode session. -/
theorem C7_map_edgemap_follows_device_witness :
    Test.ksancov_map_edgemap accepting_device (accepting_device.openat 0)
        zero_locals.edgemap_buf none =
      { ret := 0,
        buf := (accepting_device.ioctl (accepting_device.openat 0)
          ksancov_ioc.MAP_EDGEMAP 0).mc.ptr,
        sz := none } :=
  ((C7_map_edgemap_follows_device accepting_device zero_locals 0
      (by decide) (by decide) (by decide)).2 (by decide)).1

/-- A sequence of `start` / `stop` calls of `ksancov_example.c` writes nothing
but the enabled flag of a trace buffer. -/
theorem Example.example_run_ops_frame (ops : List session_op) (t : ksancov_trace) :
    (Example.run_ops ops t).kt_head = t.kt_head ∧
    (Example.run_ops ops t).kt_maxent = t.kt_maxent ∧
    (Example.run_ops ops t).kt_entries = t.kt_entries ∧
    (Example.run_ops ops t).kt_hdr.kh_magic = t.kt_hdr.kh_magic := by
  induction ops generalizing t with
  | nil => exact ⟨rfl, rfl, rfl, rfl⟩
  | cons op rest ih =>
    cases op
    · have h := ih (Example.start_trace t)
      simpa [Example.run_ops, Example.start_trace, Example.ksancov_start] using h
    · have h := ih (Example.stop_trace t)
      simpa [Example.run_ops, Example.stop_trace, Example.ksancov_stop] using h

/-- A sequence of `start` / `stop` calls of `simple_coverage_test.c` writes
nothing but the enabled flag of a trace buffer. -/
theorem Test.test_run_ops_frame (ops : List session_op) (t : ksancov_trace) :
    (Test.run_ops ops t).kt_head = t.kt_head ∧
    (Test.run_ops ops t).kt_maxent = t.kt_maxent ∧
    (Test.run_ops ops t).kt_entries = t.kt_entries ∧
    (Test.run_ops ops t).kt_hdr.kh_magic = t.kt_hdr.kh_magic := by
  induction ops generalizing t with
  | nil => exact ⟨rfl, rfl, rfl, rfl⟩
  | cons op rest ih =>
    cases op
    · have h := ih (Test.start_trace t)
      simpa [Test.run_ops, Test.start_trace, Test.ksancov_start] using h
    · have h := ih (Test.stop_trace t)
      simpa [Test.run_ops, Test.stop_trace, Test.ksancov_stop] using h

/-- C8: `ksancov_start` and `ksancov_stop` change only the enabled flag.  On a
header, a trace buffer and a counters buffer, in both programs, `start` sets
`kh_enabled` to 1 and `stop` sets it to 0, every other field is as before, and
the `ksancov_example.c` versions return 0; a second `start` changes nothing;
and along any sequence of `start` / `stop` calls the stored head, hence the
head read, never decreases. -/
theorem C8_start_stop_touch_only_enabled (h : ksancov_header) (t : ksancov_trace)
    (c : ksancov_counters) (ops more : List session_op) :
    (Example.ksancov_start h = ({ kh_magic := h.kh_magic, kh_enabled := 1 }, 0) ∧
     Example.ksancov_stop h = ({ kh_magic := h.kh_magic, kh_enabled := 0 }, 0) ∧
     Test.ksancov_start h = { kh_magic := h.kh_magic, kh_enabled := 1 } ∧
     Test.ksancov_stop h = { kh_magic := h.kh_magic, kh_enabled := 0 }) ∧
    (Example.start_trace t =
       { kt_hdr := { kh_magic := t.kt_hdr.kh_magic, kh_enabled := 1 },
         kt_maxent := t.kt_maxent, kt_head := t.kt_head, kt_entries := t.kt_entries } ∧
     Example.stop_trace t =
       { kt_hdr := { kh_magic := t.kt_hdr.kh_magic, kh_enabled := 0 },
         kt_maxent := t.kt_maxent, kt_head := t.kt_head, kt_entries := t.kt_entries } ∧
     Test.start_trace t = Example.start_trace t ∧
     Test.stop_trace t = Example.stop_trace t) ∧
    (Example.start_counters c =
       { kc_hdr := { kh_magic := c.kc_hdr.kh_magic, kh_enabled := 1 },
         kc_nedges := c.kc_nedges, kc_hits := c.kc_hits } ∧
     Example.stop_counters c =
       { kc_hdr := { kh_magic := c.kc_hdr.kh_magic, kh_enabled := 0 },
         kc_nedges := c.kc_nedges, kc_hits := c.kc_hits } ∧
     Test.start_counters c = Example.start_counters c ∧
     Test.stop_counters c = Example.stop_counters c) ∧
    (Example.start_trace (Example.start_trace t) = Example.start_trace t ∧
     Example.start_counters (Example.start_counters c) = Example.start_counters c ∧
     (Example.ksancov_start (Example.ksancov_start h).1).2 = 0 ∧
     Test.start_trace (Test.start_trace t) = Test.start_trace t ∧
     Test.start_counters (Test.start_counters c) = Test.start_counters c) ∧
    ((Example.run_ops ops t).kt_head = t.kt_head ∧
     Example.ksancov_trace_head t ≤ Example.ksancov_trace_head (Example.run_ops ops t) ∧
     Example.ksancov_trace_head (Example.run_ops ops t) ≤
       Example.ksancov_trace_head (Example.run_ops (ops ++ more) t) ∧
     (Test.run_ops ops t).kt_head = t.kt_head ∧
     Test.test_trace_mode_head t ≤ Test.test_trace_mode_head (Test.run_ops ops t) ∧
     Test.test_trace_mode_head (Test.run_ops ops t) ≤
       Test.test_trace_mode_head (Test.run_ops (ops ++ more) t)) := by
  have eh : ∀ (l : List session_op) (b : ksancov_trace),
      Example.ksancov_trace_head (Example.run_ops l b) = Example.ksancov_trace_head b := by
    intro l b
    obtain ⟨h1, h2, _, _⟩ := Example.example_run_ops_frame l b
    simp [Example.ksancov_trace_head, h1, h2]
  have th : ∀ (l : List session_op) (b : ksancov_trace),
      Test.test_trace_mode_head (Test.run_ops l b) = Test.test_trace_mode_head b := by
    intro l b
    obtain ⟨h1, h2, _, _⟩ := Test.test_run_ops_frame l b
    simp [Test.test_trace_mode_head, h1, h2]
  refine ⟨⟨rfl, rfl, rfl, rfl⟩, ⟨rfl, rfl, rfl, rfl⟩, ⟨rfl, rfl, rfl, rfl⟩,
    ⟨rfl, rfl, rfl, rfl, rfl⟩, ?_⟩
  refine ⟨(Example.example_run_ops_frame ops t).1, ?_, ?_, (Test.test_run_ops_frame ops t).1, ?_, ?_⟩
  · rw [eh]
  · rw [eh, eh]
  · rw [th]
  · rw [th, th]

/-- C9: after reset the reader sees no collected data.  The head read right
after `ksancov_reset_trace` is 0 (by `ksancov_trace_head` and by the inline
clamp alike); after `ksancov_reset_counters` every counter below `kc_nedges`
is 0, so no index below `kc_nedges` has a non-zero counter and the counting
loop of `test_counters_mode` (on an edge count that fits a `uint32_t`) ends
with `hit_edges = 0` and `total_hits = 0`, while `kc_nedges` and the header
are unchanged. -/
theorem C9_reset_clears_collected_data (t : ksancov_trace) (c : ksancov_counters) :
    Example.ksancov_trace_head (Test.ksancov_reset_trace t) = 0 ∧
    Test.test_trace_mode_head (Test.ksancov_reset_trace t) = 0 ∧
    (∀ i, i < c.kc_nedges → (Test.ksancov_reset_counters c).kc_hits i = 0) ∧
    hit_indices (Test.ksancov_reset_counters c) = [] ∧
    (c.kc_nedges < UINT32_MOD → ∀ fuel, c.kc_nedges < fuel →
      ∃ s, Test.test_counters_scan (Test.ksancov_reset_counters c) fuel = some s ∧
        s.hit_edges = 0 ∧ s.total_hits = 0) ∧
    (Test.ksancov_reset_counters c).kc_nedges = c.kc_nedges ∧
    (Test.ksancov_reset_counters c).kc_hdr = c.kc_hdr := by
  have hzero : ∀ i, i < c.kc_nedges → (Test.ksancov_reset_counters c).kc_hits i = 0 := by
    intro i hi
    simp [Test.ksancov_reset_counters, Test.bzero, hi]
  have hnil : hit_indices (Test.ksancov_reset_counters c) = [] := by
    unfold hit_indices
    rw [List.filter_eq_nil_iff]
    intro i hi
    have hlt : i < c.kc_nedges := by simpa [Test.ksancov_reset_counters] using hi
    simp [hzero i hlt]
  refine ⟨?_, ?_, hzero, hnil, ?_, rfl, rfl⟩
  · simp [Example.ksancov_trace_head, Test.ksancov_reset_trace]
  · simp [Test.test_trace_mode_head, Test.ksancov_reset_trace]
  · intro hn fuel hf
    refine ⟨_, Test.test_counters_scan_eq (Test.ksancov_reset_counters c) hn fuel hf, ?_, ?_⟩
    · simp [hnil]
    · have hsum : ((List.range (Test.ksancov_reset_counters c).kc_nedges).map
          (Test.ksancov_reset_counters c).kc_hits).sum = 0 := by
        apply List.sum_eq_zero
        intro x hx
        obtain ⟨i, hi, rfl⟩ := List.mem_map.mp hx
        exact hzero i (List.mem_range.mp hi)
      simp [hsum]

/-- Witness of C9 on the 8-edge buffer holding the hits 2, 5, 5: after
`ksancov_reset_counters` the counting loop finds nothing. -/
theorem C9_reset_clears_collected_data_witness :
    ∃ s, Test.test_counters_scan
        (Test.ksancov_reset_counters (sample_kernel_counters sample_counters)) 9 = some s ∧
      s.hit_edges = 0 ∧ s.total_hits = 0 :=
  (C9_reset_clears_collected_data sample_trace
    (sample_kernel_counters sample_counters)).2.2.2.2.1 (by decide) 9 (by decide)

/-- C10: the counting loop of `test_counters_mode`, on a buffer whose edge count
fits a `uint32_t`, comes to an end having visited exactly the indices
`0 .. kc_nedges-1`, once each and in order; `hit_edges` is then the number of
indices below `kc_nedges` with a non-zero counter (at most `kc_nedges`) and
`total_hits` the sum of the counters below `kc_nedges` modulo `2^32`.  For the
buffer with `kc_hits[2] = 1`, `kc_hits[5] = 2` and every other counter 0, this
gives `hit_edges = 2` and `total_hits = 3`, and the listing loop prints exactly
edge 2 with 1 hit and edge 5 with 2 hits. -/
theorem C10_counters_scan (c : ksancov_counters) (hn : c.kc_nedges < UINT32_MOD)
    (fuel : Nat) (hf : c.kc_nedges < fuel) :
    ∃ s, Test.test_counters_scan c fuel = some s ∧
      s.visited = List.range c.kc_nedges ∧
      s.visited.Nodup ∧
      (∀ j ∈ s.visited, j < c.kc_nedges) ∧
      s.hit_edges = (hit_indices c).length ∧
      s.hit_edges ≤ c.kc_nedges ∧
      s.total_hits = ((List.range c.kc_nedges).map c.kc_hits).sum % UINT32_MOD ∧
      ((∀ i, i < c.kc_nedges →
          c.kc_hits i = if i = 2 then 1 else if i = 5 then 2 else 0) →
        5 < c.kc_nedges →
        s.hit_edges = 2 ∧ s.total_hits = 3 ∧
        ∀ em : Option ksancov_edgemap,
          ∃ r, Test.test_counters_listing c em fuel = some r ∧
            r.out = [Event.print_edge 2 1 (Test.listed_addr em 2),
                     Event.print_edge 5 2 (Test.listed_addr em 5)]) := by
  have hscan := Test.scan_loop_spec c hn c.kc_nedges fuel
    { i := 0, hit_edges := 0, total_hits := 0, visited := [] }
    (by simp) hf (by simpa using hn) (by unfold UINT32_MOD; decide)
  simp only [Nat.zero_add, List.nil_append, ← List.range_eq_range'] at hscan
  have hlen : (hit_indices c).length ≤ c.kc_nedges := by
    unfold hit_indices
    calc ((List.range c.kc_nedges).filter _).length
        ≤ (List.range c.kc_nedges).length := List.length_filter_le _ _
      _ = c.kc_nedges := List.length_range _
  refine ⟨_, hscan, rfl, List.nodup_range _, ?_, rfl, hlen, rfl, ?_⟩
  · intro j hj
    exact List.mem_range.mp hj
  · intro hhits h5
    have hidx := hit_indices_two_five c h5 hhits
    have hsum := sum_hits_two_five c h5 hhits
    refine ⟨?_, ?_, ?_⟩
    · show (hit_indices c).length = 2
      rw [hidx]; rfl
    · show ((List.range c.kc_nedges).map c.kc_hits).sum % UINT32_MOD = 3
      rw [hsum]; rfl
    · intro em
      obtain ⟨r, hr, hout, _⟩ := Test.listing_loop_spec c em hn c.kc_nedges fuel
        { i := 0, shown := 0, out := [], ke_reads := [] } (by simp) hf (by simp)
      refine ⟨r, hr, ?_⟩
      rw [hout]
      simp only [← List.range_eq_range', List.nil_append]
      have hidx2 : (List.range c.kc_nedges).filter (fun j => decide (c.kc_hits j > 0)) =
          [2, 5] := hidx
      rw [hidx2]
      simp [Test.edge_line, hhits 2 (by omega), hhits 5 (by omega)]

/-- Witness of C10 on the 8-edge buffer in which the kernel recorded the hits
2, 5, 5: the counting loop ends with `hit_edges = 2` and `total_hits = 3`. -/
theorem C10_counters_scan_witness :
    ∃ s, Test.test_counters_scan (sample_kernel_counters sample_counters) 9 = some s ∧
      s.hit_edges = 2 ∧ s.total_hits = 3 := by
  obtain ⟨s, hs, _, _, _, _, _, _, hsample⟩ :=
    C10_counters_scan (sample_kernel_counters sample_counters) (by decide) 9 (by decide)
  have h := hsample
    (by
      intro i _
      rfl)
    (by decide)
  exact ⟨s, hs, h.1, h.2.1⟩

/-- C11: `ksancov_edge_addr(kemap, idx)` returns `ke_addrs[idx]` when
`idx < ke_nedges` and 0 when `idx >= ke_nedges`; it reads `ke_addrs` at no
index that is not below `ke_nedges` (at none at all on the early return), and
so neither does the listing loop of `example_counters_mode`, which takes every
address through it. -/
theorem C11_edge_addr_bounds_checked (kemap : ksancov_edgemap) (idx : Nat)
    (counters : ksancov_counters) :
    (idx < kemap.ke_nedges → Example.ksancov_edge_addr kemap idx = kemap.ke_addrs idx) ∧
    (idx ≥ kemap.ke_nedges → Example.ksancov_edge_addr kemap idx = 0) ∧
    (idx < kemap.ke_nedges → Example.ksancov_edge_addr_reads kemap idx = [idx]) ∧
    (idx ≥ kemap.ke_nedges → Example.ksancov_edge_addr_reads kemap idx = []) ∧
    (∀ j ∈ Example.ksancov_edge_addr_reads kemap idx, j < kemap.ke_nedges) ∧
    (∀ j ∈ Example.example_counters_listing_reads counters kemap, j < kemap.ke_nedges) := by
  have hreads : ∀ i, ∀ j ∈ Example.ksancov_edge_addr_reads kemap i, j < kemap.ke_nedges := by
    intro i j hj
    unfold Example.ksancov_edge_addr_reads at hj
    by_cases h : i ≥ kemap.ke_nedges
    · simp [h] at hj
    · simp only [h, if_false, List.mem_singleton] at hj
      omega
  refine ⟨?_, ?_, ?_, ?_, hreads idx, ?_⟩
  · intro h
    have hge : ¬ (idx ≥ kemap.ke_nedges) := Nat.not_le.mpr h
    simp [Example.ksancov_edge_addr, hge]
  · intro h
    simp [Example.ksancov_edge_addr, h]
  · intro h
    have hge : ¬ (idx ≥ kemap.ke_nedges) := Nat.not_le.mpr h
    simp [Example.ksancov_edge_addr_reads, hge]
  · intro h
    simp [Example.ksancov_edge_addr_reads, h]
  · intro j hj
    unfold Example.example_counters_listing_reads at hj
    obtain ⟨i, _, hi⟩ := List.mem_flatMap.mp hj
    exact hreads i j hi

/-- Witness of C11 on the 8-edge sample edge map: index 2 yields the address
recorded for edge 2, index 8 yields 0. -/
theorem C11_edge_addr_bounds_checked_witness :
    Example.ksancov_edge_addr sample_edgemap 2 = 0xffff0020 ∧
    Example.ksancov_edge_addr sample_edgemap 8 = 0 :=
  ⟨(C11_edge_addr_bounds_checked sample_edgemap 2 sample_counters).1 (by decide),
   (C11_edge_addr_bounds_checked sample_edgemap 8 sample_counters).2.1 (by decide)⟩

/-- Without an edge map the listing loop of `test_counters_mode` reads no
address table and prints address 0 on every line. -/
theorem Test.listing_without_edgemap_reads_nothing (c : ksancov_counters)
    (hn : c.kc_nedges < UINT32_MOD) (fuel : Nat) (hf : c.kc_nedges < fuel) :
    ∃ r, Test.test_counters_listing c none fuel = some r ∧ r.ke_reads = [] ∧
      ∀ ev ∈ r.out, ∃ j, ev = Event.print_edge j (c.kc_hits j) 0 := by
  obtain ⟨r, hr, hout, hreads⟩ := Test.test_counters_listing_eq c none hn fuel hf
  refine ⟨r, hr, ?_, ?_⟩
  · simpa using hreads
  · intro ev hev
    rw [hout] at hev
    obtain ⟨j, _, hj⟩ := List.mem_map.mp hev
    exact ⟨j, hj.symm⟩

/-- Where the edge map has at least as many edges as the counters buffer, every
read of its address table by the listing loop of `test_counters_mode` is in
range. -/
theorem Test.listing_reads_in_range_of_nedges_le (c : ksancov_counters)
    (em : ksancov_edgemap) (hn : c.kc_nedges < UINT32_MOD)
    (hle : c.kc_nedges ≤ em.ke_nedges) (fuel : Nat) (hf : c.kc_nedges < fuel) :
    ∃ r, Test.test_counters_listing c (some em) fuel = some r ∧
      ∀ j ∈ r.ke_reads, j < em.ke_nedges := by
  obtain ⟨r, hr, _, hreads⟩ := Test.test_counters_listing_eq c (some em) hn fuel hf
  refine ⟨r, hr, ?_⟩
  intro j hj
  rw [hreads] at hj
  simp only [Option.isSome_some, if_true] at hj
  have hmem : j ∈ hit_indices c := List.mem_of_mem_take hj
  unfold hit_indices at hmem
  have hlt : j < c.kc_nedges := List.mem_range.mp (List.mem_filter.mp hmem).1
  omega

/-- C12 (evaluation of the code at the failing input): with the 8-edge counters
buffer holding the hits 2, 5, 5 and a mapped edge map of only 4 edges, the
listing loop of `test_counters_mode` reads `edgemap->ke_addrs[5]`, an index
that is not below `ke_nedges = 4`, and prints what the memory after the table
holds there as the address of edge 5. -/
theorem C12_listing_reads_past_edgemap_table :
    (Test.counters_after_run device_with_short_edgemap 0x1000).kc_nedges = 8 ∧
    short_edgemap.ke_nedges = 4 ∧
    Test.test_counters_listing (Test.counters_after_run device_with_short_edgemap 0x1000)
        (some short_edgemap) 9 =
      some { i := 8, shown := 2,
             out := [Event.print_edge 2 1 0xffff0020, Event.print_edge 5 2 0xdead0005],
             ke_reads := [2, 5] } ∧
    ¬ (5 < short_edgemap.ke_nedges) ∧
    Test.test_counters_mode device_with_short_edgemap zero_locals = some
      [Event.ev_open 0, Event.ev_ioctl ksancov_ioc.COUNTERS 0,
       Event.ev_ioctl ksancov_ioc.MAP 0, Event.print_mapped_count 0x1000 4096 8,
       Event.ev_ioctl ksancov_ioc.MAP_EDGEMAP 0, Event.ev_ioctl ksancov_ioc.START 0,
       Event.ev_reset, Event.ev_start, Event.ev_workload, Event.ev_stop,
       Event.print_totals 8 2 3, Event.print_edge 2 1 0xffff0020,
       Event.print_edge 5 2 0xdead0005, Event.ev_close] := by
  refine ⟨rfl, rfl, ?_, ?_, ?_⟩
  · decide
  · decide
  · decide

end Ksancov
